import Mathlib

/-!
Shallow embedding of `src/main.rs` of the pac-human repository: a minimal
2D arcade game built on the bevy 0.9 ECS.  Positions, sizes and speeds are
`f32` in the source; we model them as exact rationals (`ℚ`).  Every constant
of the program is exactly representable in `f32` except `TIME_STEP = 1/60`;
none of the verified properties depends on that rounding.  Fallible engine
operations (`Query::single`, which panics unless exactly one entity matches)
are modelled with `Option`, `none` standing for the fatal abort.
-/

namespace PacHuman

/-- Model of bevy `Vec2` (two `f32` components), over exact rationals. -/
structure Vec2 where
  x : ℚ
  y : ℚ
deriving DecidableEq, Repr

/-- Model of bevy `Vec3`. -/
structure Vec3 where
  x : ℚ
  y : ℚ
  z : ℚ
deriving DecidableEq, Repr

/-- Model of `Vec3::truncate`: drop the z component. -/
def Vec3.truncate (v : Vec3) : Vec2 := ⟨v.x, v.y⟩

/-- Model of `Vec2::extend`: add a z component. -/
def Vec2.extend (v : Vec2) (z : ℚ) : Vec3 := ⟨v.x, v.y, z⟩

/-- Model of bevy `Color::rgb`. -/
structure Color where
  r : ℚ
  g : ℚ
  b : ℚ
deriving DecidableEq, Repr

/-- Model of bevy `Transform`: only the `translation` and `scale` fields are
used by the program (sprites take their size from `scale`). -/
structure Transform where
  translation : Vec3
  scale : Vec3
deriving DecidableEq, Repr

/-! Constants, from the top of `main.rs`. -/

/-- `const TIME_STEP: f32 = 1.0 / 60.0` (amount of time between physics steps). -/
def TIME_STEP : ℚ := 1 / 60

/-- `const PACMAN_SIZE: Vec3 = Vec3::new(60.0, 60.0, 0.0)`. -/
def PACMAN_SIZE : Vec3 := ⟨60, 60, 0⟩

/-- `const GAP_BETWEEN_PACMAN_AND_FLOOR: f32 = 60.0`. -/
def GAP_BETWEEN_PACMAN_AND_FLOOR : ℚ := 60

/-- `const PACMAN_SPEED: f32 = 500.0`. -/
def PACMAN_SPEED : ℚ := 500

/-- `const PACMAN_PADDING: f32 = 10.0` (how close the pacman can get to the wall). -/
def PACMAN_PADDING : ℚ := 10

/-- `const WALL_THICKNESS: f32 = 10.0`. -/
def WALL_THICKNESS : ℚ := 10

/-- `const LEFT_WALL: f32 = -450.`. -/
def LEFT_WALL : ℚ := -450

/-- `const RIGHT_WALL: f32 = 450.`. -/
def RIGHT_WALL : ℚ := 450

/-- `const BOTTOM_WALL: f32 = -300.`. -/
def BOTTOM_WALL : ℚ := -300

/-- `const TOP_WALL: f32 = 300.`. -/
def TOP_WALL : ℚ := 300

/-- `const PACMAN_COLOR: Color = Color::rgb(0.3, 0.3, 0.7)`. -/
def PACMAN_COLOR : Color := ⟨3/10, 3/10, 7/10⟩

/-- `const ENEMY_COLOR: Color = Color::rgb(1.0, 1.0, 0.5)`. -/
def ENEMY_COLOR : Color := ⟨1, 1, 1/2⟩

/-- `const ENEMY_SIZE: Vec2 = Vec2::new(30.0, 30.0)`. -/
def ENEMY_SIZE : Vec2 := ⟨30, 30⟩

/-- `const ENEMY_SPAWN_STEP: f64 = 1.0` (seconds between enemy spawns). -/
def ENEMY_SPAWN_STEP : ℚ := 1

/-- Model of `f32::clamp(self, min, max)` from the Rust standard library:
`min` if below, `max` if above, otherwise unchanged (requires `min ≤ max`,
which holds for every call site in the program). -/
def clampQ (x lo hi : ℚ) : ℚ :=
  if x < lo then lo else if x > hi then hi else x

/-- Model of `bevy::sprite::collide_aabb::collide` (bevy 0.9).  The library
function builds each box from its center (`a_pos`, `b_pos`) and full size
(`a_size`, `b_size`) and returns `Some side` exactly when the boxes strictly
overlap on both axes (edge contact is not a collision); the program only uses
`is_some()`, so we return that Bool. -/
def collide (a_pos : Vec3) (a_size : Vec2) (b_pos : Vec3) (b_size : Vec2) : Bool :=
  let a_min := Vec2.mk (a_pos.x - a_size.x / 2) (a_pos.y - a_size.y / 2)
  let a_max := Vec2.mk (a_pos.x + a_size.x / 2) (a_pos.y + a_size.y / 2)
  let b_min := Vec2.mk (b_pos.x - b_size.x / 2) (b_pos.y - b_size.y / 2)
  let b_max := Vec2.mk (b_pos.x + b_size.x / 2) (b_pos.y + b_size.y / 2)
  decide (a_min.x < b_max.x) && decide (a_max.x > b_min.x) &&
  decide (a_min.y < b_max.y) && decide (a_max.y > b_min.y)

/-- Model of bevy `Query::single` / `single_mut`: the query result is the
list of matching entities; `single` panics (modelled as `none`) unless
exactly one entity matches. -/
def query_single {α : Type} : List α → Option α
  | [a] => some a
  | _ => none

/-- The four directional key states read by `move_pacman`
(`keyboard_input.pressed(KeyCode::…)`). -/
structure KeyState where
  left : Bool
  right : Bool
  up : Bool
  down : Bool
deriving DecidableEq, Repr

/-- Body of `fn move_pacman` after the `query.single_mut()` succeeded:
direction from the held keys (left checked before right, down before up),
per-axis position update by `direction * PACMAN_SPEED * TIME_STEP`, then
per-axis clamp to the bounds computed in the source (note the source uses
`+` for `up_bound` and `-` for `bottom_bound`). -/
def move_pacman_core (keyboard_input : KeyState) (pacman_transform : Transform) : Transform :=
  let x_direction : ℚ :=
    if keyboard_input.left then -1 else if keyboard_input.right then 1 else 0
  let y_direction : ℚ :=
    if keyboard_input.down then -1 else if keyboard_input.up then 1 else 0
  let new_pacman_x_position :=
    pacman_transform.translation.x + x_direction * PACMAN_SPEED * TIME_STEP
  let new_pacman_y_position :=
    pacman_transform.translation.y + y_direction * PACMAN_SPEED * TIME_STEP
  let left_bound := LEFT_WALL + WALL_THICKNESS / 2 + PACMAN_SIZE.x / 2 + PACMAN_PADDING
  let right_bound := RIGHT_WALL - WALL_THICKNESS / 2 - PACMAN_SIZE.x / 2 - PACMAN_PADDING
  let up_bound := TOP_WALL + WALL_THICKNESS / 2 + PACMAN_SIZE.y / 2 + PACMAN_PADDING
  let bottom_bound := BOTTOM_WALL - WALL_THICKNESS / 2 - PACMAN_SIZE.y / 2 - PACMAN_PADDING
  { pacman_transform with
    translation :=
      { pacman_transform.translation with
        x := clampQ new_pacman_x_position left_bound right_bound,
        y := clampQ new_pacman_y_position bottom_bound up_bound } }

/-- `fn move_pacman`: `query.single_mut()` first (panic — `none` — unless
exactly one `Pacman` entity matches), then the body. -/
def move_pacman (keyboard_input : KeyState) (query : List Transform) : Option Transform :=
  (query_single query).map (move_pacman_core keyboard_input)

example : move_pacman_core ⟨false, true, false, false⟩
    ⟨⟨0, 0, 0⟩, PACMAN_SIZE⟩ = ⟨⟨25/3, 0, 0⟩, PACMAN_SIZE⟩ := by
  norm_num [move_pacman_core, clampQ, TIME_STEP, PACMAN_SPEED, LEFT_WALL,
    RIGHT_WALL, WALL_THICKNESS, PACMAN_SIZE, PACMAN_PADDING, BOTTOM_WALL, TOP_WALL]

/-- One row of the collider query of `check_for_collisions`:
`Query<(Entity, &Transform, Option<&Enemy>), With<Collider>>`.
`isEnemy` models `maybe_enemy.is_some()`. -/
structure ColliderItem where
  entity : Nat
  transform : Transform
  isEnemy : Bool
deriving DecidableEq, Repr

/-- Effects of one run of `check_for_collisions`: how many `CollisionEvent`s
were sent, the scoreboard value afterwards, and the entity ids despawned
(in iteration order). -/
structure CollisionResult where
  events : Nat
  score : Nat
  despawned : List Nat
deriving DecidableEq, Repr

/-- The `for (collider_entity, transform, maybe_enemy) in &collider_query`
loop of `check_for_collisions`: on overlap send one event, and if the
collider is an enemy additionally increment the score and despawn it. -/
def collision_loop (pacman_transform : Transform) (pacman_size : Vec2) :
    List ColliderItem → CollisionResult → CollisionResult
  | [], acc => acc
  | c :: rest, acc =>
    collision_loop pacman_transform pacman_size rest
      (if collide pacman_transform.translation pacman_size
          c.transform.translation c.transform.scale.truncate then
        { events := acc.events + 1,
          score := if c.isEnemy then acc.score + 1 else acc.score,
          despawned := if c.isEnemy then acc.despawned ++ [c.entity] else acc.despawned }
      else acc)

/-- Body of `fn check_for_collisions` after `pacman_query.single()`
succeeded: iterate the collider query against the pacman box. -/
def check_for_collisions_core (score : Nat) (pacman_transform : Transform)
    (collider_query : List ColliderItem) : CollisionResult :=
  let pacman_size := pacman_transform.scale.truncate
  collision_loop pacman_transform pacman_size collider_query
    { events := 0, score := score, despawned := [] }

/-- `fn check_for_collisions`: `pacman_query.single()` first (panic — `none`
— unless exactly one `Pacman` entity matches), then the collider loop. -/
def check_for_collisions (score : Nat) (pacman_query : List Transform)
    (collider_query : List ColliderItem) : Option CollisionResult :=
  (query_single pacman_query).map
    (fun pacman_transform => check_for_collisions_core score pacman_transform collider_query)

/-- Effects of one run of `play_collision_sound`: how many times the sound
was played this run, and the collision-event queue afterwards (event count;
`CollisionEvent` carries no data). -/
structure SoundResult where
  plays : Nat
  events_after : Nat
deriving DecidableEq, Repr

/-- `fn play_collision_sound`: if the event queue is non-empty, clear it and
play the sound once; otherwise do nothing. -/
def play_collision_sound (collision_events : Nat) : SoundResult :=
  if collision_events ≠ 0 then { plays := 1, events_after := 0 }
  else { plays := 0, events_after := collision_events }

/-- An entity as spawned by `commands.spawn` for the enemy bundle: sprite
color, transform, and the `Enemy` and `Collider` marker components. -/
structure SpawnedEntity where
  color : Color
  transform : Transform
  isEnemy : Bool
  isCollider : Bool
deriving DecidableEq, Repr

/-- `fn spawn_enemy`: one `commands.spawn` call creating one enemy.  The
parameters `rx`, `ry` are the two values drawn independently by
`rand::thread_rng().gen_range(LEFT_WALL..RIGHT_WALL)` and
`gen_range(BOTTOM_WALL..TOP_WALL)`; `gen_range` on a half-open range `lo..hi`
returns a value uniformly distributed in `[lo, hi)`, which we model by
quantifying over samples subject to that contract. -/
def spawn_enemy (rx ry : ℚ) : List SpawnedEntity :=
  [{ color := ENEMY_COLOR,
     transform :=
       { translation := (Vec2.mk rx ry).extend 0,
         scale := ENEMY_SIZE.extend 1 },
     isEnemy := true,
     isCollider := true }]

/-- `enum WallLocation`: which side of the arena a wall is on. -/
inductive WallLocation where
  | Left
  | Right
  | Bottom
  | Top
deriving DecidableEq, Repr

/-- `WallLocation::position`. -/
def WallLocation.position : WallLocation → Vec2
  | WallLocation.Left => ⟨LEFT_WALL, 0⟩
  | WallLocation.Right => ⟨RIGHT_WALL, 0⟩
  | WallLocation.Bottom => ⟨0, BOTTOM_WALL⟩
  | WallLocation.Top => ⟨0, TOP_WALL⟩

/-- `WallLocation::size` (the source's `assert!`s on arena width/height hold:
both are 600 > 0). -/
def WallLocation.size : WallLocation → Vec2
  | WallLocation.Left | WallLocation.Right =>
      ⟨WALL_THICKNESS, TOP_WALL - BOTTOM_WALL + WALL_THICKNESS⟩
  | WallLocation.Bottom | WallLocation.Top =>
      ⟨RIGHT_WALL - LEFT_WALL + WALL_THICKNESS, WALL_THICKNESS⟩

/-- Transform of a wall entity as built by `WallBundle::new`:
translation = `location.position().extend(0.0)`, scale = `location.size().extend(1.0)`. -/
def wall_transform (location : WallLocation) : Transform :=
  { translation := location.position.extend 0,
    scale := location.size.extend 1 }

/-- Transform of the pacman entity as spawned by `setup`: translation
`(0, BOTTOM_WALL + GAP_BETWEEN_PACMAN_AND_FLOOR, 0)`, scale `PACMAN_SIZE`. -/
def setup_pacman_transform : Transform :=
  { translation := ⟨0, BOTTOM_WALL + GAP_BETWEEN_PACMAN_AND_FLOOR, 0⟩,
    scale := PACMAN_SIZE }

/-- `struct Scoreboard`. -/
structure Scoreboard where
  score : Nat
deriving DecidableEq, Repr

/-- The scoreboard resource inserted by `main`:
`.insert_resource(Scoreboard { score: 0 })`. -/
def main_scoreboard : Scoreboard := { score := 0 }

/-- The mutable game state relevant to the fixed-timestep systems: the score
resource, the unique pacman entity's transform, the live enemy entities
(entity id and transform), and the ECS id counter for freshly spawned
entities.  The four wall entities are immutable (never moved or despawned)
and are kept as the constant `wall_colliders`; the collision-event queue is
empty at the start of each tick because `play_collision_sound` clears it
whenever it is non-empty. -/
structure GameState where
  score : Nat
  pacman : Transform
  enemies : List (Nat × Transform)
  nextId : Nat
deriving DecidableEq, Repr

/-- Entity id assigned to the pacman entity spawned by `setup`. -/
def pacman_entity_id : Nat := 0

/-- The four wall entities spawned by `setup` (ids 1–4), as rows of the
collider query: each has the `Collider` marker and no `Enemy` marker. -/
def wall_colliders : List ColliderItem :=
  [⟨1, wall_transform WallLocation.Left, false⟩,
   ⟨2, wall_transform WallLocation.Right, false⟩,
   ⟨3, wall_transform WallLocation.Bottom, false⟩,
   ⟨4, wall_transform WallLocation.Top, false⟩]

/-- The live enemy entities as rows of the collider query (spawned with both
`Enemy` and `Collider` markers). -/
def enemy_colliders (s : GameState) : List ColliderItem :=
  s.enemies.map (fun e => ⟨e.1, e.2, true⟩)

/-- The collider query `Query<(Entity, &Transform, Option<&Enemy>), With<Collider>>`
in state `s`: every entity carrying the `Collider` marker — the pacman
(spawned with `Collider` in `setup`), the four walls, and all enemies. -/
def collider_query (s : GameState) : List ColliderItem :=
  ⟨pacman_entity_id, s.pacman, false⟩ :: (wall_colliders ++ enemy_colliders s)

/-- Result of one physics tick: the next game state, the number of collision
events sent by `check_for_collisions`, and how many times
`play_collision_sound` played the sound. -/
structure TickResult where
  state : GameState
  events : Nat
  plays : Nat
deriving DecidableEq, Repr

/-- One fixed physics tick, in the order fixed by `main`'s system set:
`move_pacman` before `check_for_collisions` before `play_collision_sound`.
Despawned enemies are removed from the entity collection (commands are
applied after the system runs, before the next tick). -/
def tick (keyboard_input : KeyState) (s : GameState) : TickResult :=
  let p2 := move_pacman_core keyboard_input s.pacman
  let s1 : GameState := { s with pacman := p2 }
  let res := check_for_collisions_core s1.score s1.pacman (collider_query s1)
  let snd := play_collision_sound res.events
  { state :=
      { s1 with
        score := res.score,
        enemies := s1.enemies.filter (fun e => !(decide (e.1 ∈ res.despawned))) },
    events := res.events,
    plays := snd.plays }

/-- One firing of the enemy-spawn timer: `spawn_enemy` adds one enemy entity
with a fresh id (`rx`, `ry` are the two random samples, see `spawn_enemy`). -/
def do_spawn (rx ry : ℚ) (s : GameState) : GameState :=
  { s with
    enemies := s.enemies ++ (spawn_enemy rx ry).map (fun e => (s.nextId, e.transform)),
    nextId := s.nextId + 1 }

/-- A step of the interleaved schedule: either one physics tick (with the
keys held during it) or one firing of the slower enemy-spawn timer (with its
two random samples). -/
inductive GameStep where
  | tickStep : KeyState → GameStep
  | spawnStep : ℚ → ℚ → GameStep

/-- Run a sequence of schedule steps from a state. -/
def run_steps : List GameStep → GameState → GameState
  | [], s => s
  | GameStep.tickStep k :: rest, s => run_steps rest (tick k s).state
  | GameStep.spawnStep rx ry :: rest, s => run_steps rest (do_spawn rx ry s)

/-- The initial game state right after `setup` (score 0, pacman at its spawn
position, no enemies yet; ids 0–4 are taken by pacman and walls). -/
def initial_state : GameState :=
  { score := 0, pacman := setup_pacman_transform, enemies := [], nextId := 5 }

/-! Helper predicates and characterization of the collision sweep. -/

/-- The pacman box (center `pt.translation`, size `pt.scale.truncate`)
strictly overlaps collider `c`'s box — the test `check_for_collisions`
applies to each row of the collider query. -/
def hits (pt : Transform) (c : ColliderItem) : Bool :=
  collide pt.translation pt.scale.truncate c.transform.translation c.transform.scale.truncate

/-- `c` is an enemy the pacman box overlaps. -/
def hitsEnemy (pt : Transform) (c : ColliderItem) : Bool :=
  hits pt c && c.isEnemy

theorem collision_loop_eq (pt : Transform) (q : List ColliderItem) (acc : CollisionResult) :
    collision_loop pt pt.scale.truncate q acc =
      { events := acc.events + (q.filter (hits pt)).length,
        score := acc.score + (q.filter (hitsEnemy pt)).length,
        despawned := acc.despawned ++ (q.filter (hitsEnemy pt)).map ColliderItem.entity } := by
  induction q generalizing acc with
  | nil => simp [collision_loop]
  | cons c rest ih =>
    by_cases h : hits pt c = true
    · by_cases he : c.isEnemy = true
      · simp only [collision_loop, hits] at h ⊢
        rw [h, if_pos rfl, ih]
        simp [List.filter_cons, hits, hitsEnemy, h, he]
        omega
      · simp only [collision_loop, hits] at h ⊢
        rw [h, if_pos rfl, ih]
        simp only [Bool.not_eq_true] at he
        simp [List.filter_cons, hits, hitsEnemy, h, he]
        omega
    · simp only [collision_loop, hits] at h ⊢
      simp only [Bool.not_eq_true] at h
      rw [h, if_neg (by simp), ih]
      simp [List.filter_cons, hits, hitsEnemy, h]

/-- Closed form of one `check_for_collisions` sweep: one event per
overlapping collider, score increased by the number of overlapping enemies,
and exactly the overlapping enemies despawned, in query order. -/
theorem check_core_eq (score : Nat) (pt : Transform) (q : List ColliderItem) :
    check_for_collisions_core score pt q =
      { events := (q.filter (hits pt)).length,
        score := score + (q.filter (hitsEnemy pt)).length,
        despawned := (q.filter (hitsEnemy pt)).map ColliderItem.entity } := by
  simp [check_for_collisions_core, collision_loop_eq]

/-- A box of positive width and height always strictly overlaps itself. -/
theorem collide_self (t : Transform) (hx : 0 < t.scale.x) (hy : 0 < t.scale.y) :
    collide t.translation t.scale.truncate t.translation t.scale.truncate = true := by
  simp only [collide, Vec3.truncate, Bool.and_eq_true, decide_eq_true_eq, gt_iff_lt]
  repeat' apply And.intro
  all_goals linarith

/-- `move_pacman` only writes the translation: the scale is untouched. -/
theorem move_pacman_core_scale (k : KeyState) (t : Transform) :
    (move_pacman_core k t).scale = t.scale := rfl

/-- `Query::single` (modelled by `query_single`) aborts exactly when the
number of matching entities is not one. -/
theorem query_single_eq_none {α : Type} (l : List α) :
    query_single l = none ↔ l.length ≠ 1 := by
  match l with
  | [] => simp [query_single]
  | [a] => simp [query_single]
  | a :: b :: rest => simp [query_single]

/-! Claim theorems. -/

/-- C5: in one run of Player Movement, the horizontal direction is -1 when
left is held (left takes precedence over right), else +1 when right is held,
else 0; the vertical direction is -1 when down is held (down takes
precedence over up), else +1 when up is held, else 0; the new position is
old position + direction * speed * tick duration computed independently per
axis and then clamped per axis; and a player at x = 0 holding right for one
tick moves to x = 500/60 = 25/3 ≈ 8.33, strictly inside the x bounds, hence
unclamped. -/
theorem c5_movement_step_formula :
    (∀ (k : KeyState) (t : Transform),
      move_pacman_core k t =
        { t with translation :=
          { t.translation with
            x := clampQ (t.translation.x +
                   (if k.left then -1 else if k.right then 1 else 0) * PACMAN_SPEED * TIME_STEP)
                 (-405) 405,
            y := clampQ (t.translation.y +
                   (if k.down then -1 else if k.up then 1 else 0) * PACMAN_SPEED * TIME_STEP)
                 (-345) 345 } }) ∧
    (∀ (t : Transform) (u d : Bool),
      move_pacman_core ⟨true, true, u, d⟩ t = move_pacman_core ⟨true, false, u, d⟩ t) ∧
    (∀ (t : Transform) (l r : Bool),
      move_pacman_core ⟨l, r, true, true⟩ t = move_pacman_core ⟨l, r, false, true⟩ t) ∧
    (move_pacman_core ⟨false, true, false, false⟩
        { translation := ⟨0, 0, 0⟩, scale := PACMAN_SIZE }).translation.x = 500 / 60 ∧
    (-405 : ℚ) < 500 / 60 ∧ (500 : ℚ) / 60 < 405 := by
  refine ⟨?_, ?_, ?_, ?_, by norm_num, by norm_num⟩
  · intro k t
    simp only [move_pacman_core]
    norm_num [LEFT_WALL, RIGHT_WALL, TOP_WALL, BOTTOM_WALL, WALL_THICKNESS,
      PACMAN_SIZE, PACMAN_PADDING]
  · intro t u d
    simp [move_pacman_core]
  · intro t l r
    simp [move_pacman_core]
  · norm_num [move_pacman_core, clampQ, TIME_STEP, PACMAN_SPEED, LEFT_WALL,
      RIGHT_WALL, WALL_THICKNESS, PACMAN_SIZE, PACMAN_PADDING, BOTTOM_WALL, TOP_WALL]

/-- C2 (failing input): the claim says Player Movement keeps the y
coordinate in [-255, 255], but the source computes
`up_bound = TOP_WALL + WALL_THICKNESS/2 + PACMAN_SIZE.y/2 + PACMAN_PADDING = 345`
(and `bottom_bound = -345`) — a sign slip relative to the x-axis pattern —
so from y = 255, one tick of holding Up moves the player to 790/3 ≈ 263.33,
outside the claimed band (sustained input reaches y = 345, fully beyond the
top wall, which spans y ∈ [295, 305]). -/
theorem c2_y_bound_violation :
    (move_pacman_core ⟨false, false, true, false⟩
        { translation := ⟨0, 255, 0⟩, scale := PACMAN_SIZE }).translation.y = 790 / 3 ∧
    (255 : ℚ) < 790 / 3 := by
  constructor
  · norm_num [move_pacman_core, clampQ, TIME_STEP, PACMAN_SPEED, LEFT_WALL,
      RIGHT_WALL, WALL_THICKNESS, PACMAN_SIZE, PACMAN_PADDING, BOTTOM_WALL, TOP_WALL]
  · norm_num

/-- C6: Player Movement and Collision & Scoring each query "the" pacman
entity with `single`/`single_mut`, which aborts fatally (modelled by `none`)
exactly when the number of `Pacman` entities is not one; with exactly one
player both systems run normally. -/
theorem c6_exactly_one_player_or_abort (k : KeyState) (pacman_query : List Transform)
    (score : Nat) (cq : List ColliderItem) :
    (move_pacman k pacman_query = none ↔ pacman_query.length ≠ 1) ∧
    (check_for_collisions score pacman_query cq = none ↔ pacman_query.length ≠ 1) := by
  constructor
  · rw [move_pacman, Option.map_eq_none', query_single_eq_none]
  · rw [check_for_collisions, Option.map_eq_none', query_single_eq_none]

/-- C7: one run of Collision Sound Trigger plays the sound exactly once iff
the collision-event queue is non-empty (3 accumulated events still give one
play), leaves the queue empty afterwards in every case, and on an empty
queue plays nothing and changes nothing. -/
theorem c7_sound_once_then_clear (n : Nat) :
    (play_collision_sound n).plays = (if n = 0 then 0 else 1) ∧
    (play_collision_sound n).events_after = 0 ∧
    play_collision_sound 0 = { plays := 0, events_after := 0 } ∧
    play_collision_sound 3 = { plays := 1, events_after := 0 } := by
  by_cases h : n = 0 <;> simp [play_collision_sound, h]

/-- C10: one invocation of the Enemy Spawner creates exactly one enemy
entity with the `Enemy` and `Collider` markers, fixed color `ENEMY_COLOR`,
fixed size `ENEMY_SIZE`, and position taken from the two independently drawn
`gen_range` samples, hence x ∈ [-450, 450) and y ∈ [-300, 300) (uniformity
over each half-open interval is the `gen_range` primitive's contract,
modelled by the hypotheses on the samples). -/
theorem c10_spawn_enemy_in_arena (rx ry : ℚ)
    (hx1 : LEFT_WALL ≤ rx) (hx2 : rx < RIGHT_WALL)
    (hy1 : BOTTOM_WALL ≤ ry) (hy2 : ry < TOP_WALL) :
    (spawn_enemy rx ry).length = 1 ∧
    ∀ e ∈ spawn_enemy rx ry,
      e.isEnemy = true ∧ e.isCollider = true ∧ e.color = ENEMY_COLOR ∧
      e.transform.scale = ENEMY_SIZE.extend 1 ∧
      (-450 : ℚ) ≤ e.transform.translation.x ∧ e.transform.translation.x < 450 ∧
      (-300 : ℚ) ≤ e.transform.translation.y ∧ e.transform.translation.y < 300 := by
  rw [LEFT_WALL] at hx1
  rw [RIGHT_WALL] at hx2
  rw [BOTTOM_WALL] at hy1
  rw [TOP_WALL] at hy2
  refine ⟨rfl, ?_⟩
  intro e he
  simp only [spawn_enemy, List.mem_singleton] at he
  subst he
  exact ⟨rfl, rfl, rfl, rfl, hx1, hx2, hy1, hy2⟩

/-- Unfolding of the strict AABB overlap test into its four inequalities. -/
theorem collide_iff (a_pos : Vec3) (a_size : Vec2) (b_pos : Vec3) (b_size : Vec2) :
    collide a_pos a_size b_pos b_size = true ↔
      (a_pos.x - a_size.x / 2 < b_pos.x + b_size.x / 2 ∧
       a_pos.x + a_size.x / 2 > b_pos.x - b_size.x / 2 ∧
       a_pos.y - a_size.y / 2 < b_pos.y + b_size.y / 2 ∧
       a_pos.y + a_size.y / 2 > b_pos.y - b_size.y / 2) := by
  simp [collide, and_assoc]

theorem collide_eq_false_iff (a_pos : Vec3) (a_size : Vec2) (b_pos : Vec3) (b_size : Vec2) :
    collide a_pos a_size b_pos b_size = false ↔
      ¬(a_pos.x - a_size.x / 2 < b_pos.x + b_size.x / 2 ∧
        a_pos.x + a_size.x / 2 > b_pos.x - b_size.x / 2 ∧
        a_pos.y - a_size.y / 2 < b_pos.y + b_size.y / 2 ∧
        a_pos.y + a_size.y / 2 > b_pos.y - b_size.y / 2) := by
  rw [Bool.eq_false_iff, Ne, collide_iff]

/-- The pacman overlaps its own row of the collider query whenever its box
has positive width and height. -/
theorem hits_self (t : Transform) (hx : 0 < t.scale.x) (hy : 0 < t.scale.y)
    (i : Nat) (b : Bool) : hits t ⟨i, t, b⟩ = true :=
  collide_self t hx hy

/-- At its spawn position, the pacman box overlaps none of the four walls. -/
theorem initial_walls_miss :
    ∀ c ∈ wall_colliders, hits setup_pacman_transform c = false := by
  intro c hc
  simp only [wall_colliders, List.mem_cons, List.not_mem_nil, or_false] at hc
  rcases hc with rfl | rfl | rfl | rfl <;>
    (rw [hits, collide_eq_false_iff]
     norm_num [setup_pacman_transform, wall_transform, WallLocation.position,
       WallLocation.size, Vec2.extend, Vec3.truncate, PACMAN_SIZE, LEFT_WALL,
       RIGHT_WALL, BOTTOM_WALL, TOP_WALL, WALL_THICKNESS, GAP_BETWEEN_PACMAN_AND_FLOOR])

/-- C1 (counterexample): in the post-`setup` state the player's box is
disjoint from every wall's box and there is no enemy, yet one run of
Collision & Scoring emits one collision event (the player, spawned with the
`Collider` marker, is itself a row of the collider query and overlaps
itself) — not zero as the claim states. -/
theorem c1_counterexample :
    (∀ c ∈ wall_colliders ++ enemy_colliders initial_state,
      hits initial_state.pacman c = false) ∧
    (check_for_collisions_core initial_state.score initial_state.pacman
      (collider_query initial_state)).events = 1 := by
  have hmiss : ∀ c ∈ wall_colliders ++ enemy_colliders initial_state,
      hits initial_state.pacman c = false := by
    intro c hc
    simp only [initial_state, enemy_colliders, List.map_nil, List.append_nil] at hc
    exact initial_walls_miss c hc
  refine ⟨hmiss, ?_⟩
  have hself : hits initial_state.pacman
      ⟨pacman_entity_id, initial_state.pacman, false⟩ = true := by
    apply hits_self
    · norm_num [initial_state, setup_pacman_transform, PACMAN_SIZE]
    · norm_num [initial_state, setup_pacman_transform, PACMAN_SIZE]
  rw [check_core_eq]
  show ((collider_query initial_state).filter (hits initial_state.pacman)).length = 1
  rw [collider_query, List.filter_cons_of_pos hself,
    List.filter_eq_nil_iff.mpr (by intro c hc; simp [hmiss c hc])]
  rfl

/-- C1 (amended): for every state whose player has its spawned size, if the
player's box is fully disjoint from the box of every other collider entity
(every wall and every enemy), one run of Collision & Scoring emits exactly
ONE collision event — the player's self-overlap, since the player itself
carries the `Collider` marker — and leaves both the score and the set of
enemy entities unchanged. -/
theorem c1_amended_one_self_event (s : GameState)
    (hscale : s.pacman.scale = PACMAN_SIZE)
    (hdisj : ∀ c ∈ wall_colliders ++ enemy_colliders s, hits s.pacman c = false) :
    (check_for_collisions_core s.score s.pacman (collider_query s)).events = 1 ∧
    (check_for_collisions_core s.score s.pacman (collider_query s)).score = s.score ∧
    (check_for_collisions_core s.score s.pacman (collider_query s)).despawned = [] ∧
    s.enemies.filter (fun e => !(decide (e.1 ∈
      (check_for_collisions_core s.score s.pacman (collider_query s)).despawned)))
      = s.enemies := by
  have hself : hits s.pacman ⟨pacman_entity_id, s.pacman, false⟩ = true := by
    apply hits_self
    · rw [hscale]; norm_num [PACMAN_SIZE]
    · rw [hscale]; norm_num [PACMAN_SIZE]
  have hfilter : (collider_query s).filter (hits s.pacman)
      = [⟨pacman_entity_id, s.pacman, false⟩] := by
    rw [collider_query, List.filter_cons_of_pos hself,
      List.filter_eq_nil_iff.mpr (by intro c hc; simp [hdisj c hc])]
  have hfilterE : (collider_query s).filter (hitsEnemy s.pacman) = [] := by
    rw [collider_query]
    apply List.filter_eq_nil_iff.mpr
    intro c hc
    rcases List.mem_cons.mp hc with rfl | hc2
    · simp [hitsEnemy]
    · simp [hitsEnemy, hdisj c hc2]
  rw [check_core_eq]
  refine ⟨?_, ?_, ?_, ?_⟩ <;> simp [hfilter, hfilterE]

/-- Witness for the amended C1, at the post-`setup` state. -/
theorem c1_amended_one_self_event_witness :
    (check_for_collisions_core initial_state.score initial_state.pacman
      (collider_query initial_state)).events = 1 ∧
    (check_for_collisions_core initial_state.score initial_state.pacman
      (collider_query initial_state)).score = initial_state.score ∧
    (check_for_collisions_core initial_state.score initial_state.pacman
      (collider_query initial_state)).despawned = [] ∧
    initial_state.enemies.filter (fun e => !(decide (e.1 ∈
      (check_for_collisions_core initial_state.score initial_state.pacman
        (collider_query initial_state)).despawned)))
      = initial_state.enemies :=
  c1_amended_one_self_event initial_state rfl (by
    intro c hc
    simp only [initial_state, enemy_colliders, List.map_nil, List.append_nil] at hc
    exact initial_walls_miss c hc)

/-- C4: the player entity is spawned with the `Collider` marker (its spawned
scale is `PACMAN_SIZE`), the collider query does not exclude the player, a
positive box always overlaps itself, and every tick preserves the player's
scale; hence on every tick from a state whose player has its spawned scale,
Collision & Scoring emits at least one collision event and Collision Sound
Trigger plays the sound, even with the player far from every wall and enemy. -/
theorem c4_self_collision_every_tick :
    setup_pacman_transform.scale = PACMAN_SIZE ∧
    (∀ (k : KeyState) (s : GameState), (tick k s).state.pacman.scale = s.pacman.scale) ∧
    (∀ (s : GameState) (k : KeyState), s.pacman.scale = PACMAN_SIZE →
      1 ≤ (tick k s).events ∧ (tick k s).plays = 1) := by
  refine ⟨rfl, fun k s => rfl, ?_⟩
  intro s k hscale
  have hself : hits (move_pacman_core k s.pacman)
      ⟨pacman_entity_id, move_pacman_core k s.pacman, false⟩ = true := by
    apply hits_self
    · rw [move_pacman_core_scale, hscale]; norm_num [PACMAN_SIZE]
    · rw [move_pacman_core_scale, hscale]; norm_num [PACMAN_SIZE]
  have hev : (check_for_collisions_core s.score (move_pacman_core k s.pacman)
      (collider_query { s with pacman := move_pacman_core k s.pacman })).events ≠ 0 := by
    rw [check_core_eq]
    show ((collider_query _).filter _).length ≠ 0
    rw [collider_query, List.filter_cons_of_pos hself]
    simp
  constructor
  · show 1 ≤ (check_for_collisions_core s.score (move_pacman_core k s.pacman)
      (collider_query { s with pacman := move_pacman_core k s.pacman })).events
    omega
  · show (play_collision_sound (check_for_collisions_core s.score
      (move_pacman_core k s.pacman)
      (collider_query { s with pacman := move_pacman_core k s.pacman })).events).plays = 1
    simp [play_collision_sound, hev]

/-- Witness for C4, at the post-`setup` state with no key held. -/
theorem c4_self_collision_every_tick_witness :
    1 ≤ (tick ⟨false, false, false, false⟩ initial_state).events ∧
    (tick ⟨false, false, false, false⟩ initial_state).plays = 1 :=
  c4_self_collision_every_tick.2.2 initial_state ⟨false, false, false, false⟩ rfl

/-- C8: an overlapping Wall (non-enemy collider) contributes exactly one
collision event and nothing else: removing it from the query drops the event
count by one and leaves the resulting score and despawn list identical; and
every despawned entity is an enemy of the query, so walls are never removed
(the system writes no transform, so nothing moves). -/
theorem c8_wall_overlap_only_event (score : Nat) (pt : Transform)
    (q1 q2 : List ColliderItem) (c : ColliderItem)
    (hw : c.isEnemy = false) (hov : hits pt c = true) :
    (check_for_collisions_core score pt (q1 ++ c :: q2)).events
      = (check_for_collisions_core score pt (q1 ++ q2)).events + 1 ∧
    (check_for_collisions_core score pt (q1 ++ c :: q2)).score
      = (check_for_collisions_core score pt (q1 ++ q2)).score ∧
    (check_for_collisions_core score pt (q1 ++ c :: q2)).despawned
      = (check_for_collisions_core score pt (q1 ++ q2)).despawned ∧
    (∀ e ∈ (check_for_collisions_core score pt (q1 ++ c :: q2)).despawned,
      ∃ d ∈ q1 ++ c :: q2, d.isEnemy = true ∧ d.entity = e) := by
  have hce : hitsEnemy pt c = false := by simp [hitsEnemy, hw]
  simp only [check_core_eq]
  refine ⟨?_, ?_, ?_, ?_⟩
  · simp only [List.filter_append, List.filter_cons, hov, if_pos]
    simp [List.length_append]
    omega
  · simp [List.filter_append, List.filter_cons, hce]
  · simp [List.filter_append, List.filter_cons, hce]
  · intro e he
    simp only [List.mem_map] at he
    obtain ⟨d, hd, rfl⟩ := he
    have hd2 := List.mem_filter.mp hd
    refine ⟨d, hd2.1, ?_, rfl⟩
    have := hd2.2
    simp only [hitsEnemy, Bool.and_eq_true] at this
    exact this.2

end PacHuman

namespace PacHuman

/-- Pacman transform overlapping the left wall, for the C8 witness. -/
def c8_pac : Transform := { translation := ⟨-430, 0, 0⟩, scale := PACMAN_SIZE }

/-- The left wall's row of the collider query, for the C8 witness. -/
def left_wall_item : ColliderItem := ⟨1, wall_transform WallLocation.Left, false⟩

/-- Witness for C8: the pacman box at (-430, 0) overlaps the left wall. -/
theorem c8_wall_overlap_only_event_witness :
    (check_for_collisions_core 0 c8_pac ([] ++ left_wall_item :: [])).events
      = (check_for_collisions_core 0 c8_pac ([] ++ [])).events + 1 ∧
    (check_for_collisions_core 0 c8_pac ([] ++ left_wall_item :: [])).score
      = (check_for_collisions_core 0 c8_pac ([] ++ [])).score ∧
    (check_for_collisions_core 0 c8_pac ([] ++ left_wall_item :: [])).despawned
      = (check_for_collisions_core 0 c8_pac ([] ++ [])).despawned ∧
    (∀ e ∈ (check_for_collisions_core 0 c8_pac ([] ++ left_wall_item :: [])).despawned,
      ∃ d ∈ [] ++ left_wall_item :: [], d.isEnemy = true ∧ d.entity = e) :=
  c8_wall_overlap_only_event 0 c8_pac [] [] left_wall_item rfl (by
    rw [hits, collide_iff]
    norm_num [c8_pac, left_wall_item, wall_transform, WallLocation.position,
      WallLocation.size, Vec2.extend, Vec3.truncate, PACMAN_SIZE, LEFT_WALL,
      RIGHT_WALL, BOTTOM_WALL, TOP_WALL, WALL_THICKNESS])

/-- Every tick increases the score by exactly the number of enemies the
(already moved) player overlaps in that tick's collider query. -/
theorem tick_score (k : KeyState) (s : GameState) :
    (tick k s).state.score =
      s.score + ((collider_query { s with pacman := move_pacman_core k s.pacman }).filter
        (hitsEnemy (move_pacman_core k s.pacman))).length := by
  show (check_for_collisions_core s.score (move_pacman_core k s.pacman)
      (collider_query { s with pacman := move_pacman_core k s.pacman })).score = _
  rw [check_core_eq]

/-- The score never decreases across any interleaving of physics ticks and
enemy spawns. -/
theorem run_steps_score_mono (steps : List GameStep) (s : GameState) :
    s.score ≤ (run_steps steps s).score := by
  induction steps generalizing s with
  | nil => simp [run_steps]
  | cons st rest ih =>
    cases st with
    | tickStep k =>
      refine le_trans ?_ (ih (tick k s).state)
      rw [tick_score]
      exact Nat.le_add_right _ _
    | spawnStep rx ry =>
      exact le_trans (le_of_eq rfl) (ih (do_spawn rx ry s))

/-- C9: the score resource is created at 0 by `main`; Collision & Scoring is
the only operation that writes it, adding exactly 1 per overlapping enemy in
the tick (an enemy spawn leaves it unchanged); hence over every sequence of
ticks and spawns the score is monotonically non-decreasing. -/
theorem c9_score_monotone :
    main_scoreboard.score = 0 ∧
    (∀ (k : KeyState) (s : GameState),
      (tick k s).state.score =
        s.score + ((collider_query { s with pacman := move_pacman_core k s.pacman }).filter
          (hitsEnemy (move_pacman_core k s.pacman))).length) ∧
    (∀ (rx ry : ℚ) (s : GameState), (do_spawn rx ry s).score = s.score) ∧
    (∀ (steps : List GameStep) (s : GameState), s.score ≤ (run_steps steps s).score) :=
  ⟨rfl, tick_score, fun _ _ _ => rfl, run_steps_score_mono⟩

end PacHuman

namespace PacHuman

/-- Witness for C10 at the concrete samples rx = 0, ry = 0. -/
theorem c10_spawn_enemy_in_arena_witness :
    (spawn_enemy 0 0).length = 1 ∧
    ∀ e ∈ spawn_enemy 0 0,
      e.isEnemy = true ∧ e.isCollider = true ∧ e.color = ENEMY_COLOR ∧
      e.transform.scale = ENEMY_SIZE.extend 1 ∧
      (-450 : ℚ) ≤ e.transform.translation.x ∧ e.transform.translation.x < 450 ∧
      (-300 : ℚ) ≤ e.transform.translation.y ∧ e.transform.translation.y < 300 :=
  c10_spawn_enemy_in_arena 0 0 (by norm_num [LEFT_WALL]) (by norm_num [RIGHT_WALL])
    (by norm_num [BOTTOM_WALL]) (by norm_num [TOP_WALL])

/-- C3: when the player's box overlaps an enemy's box, one run of Collision
& Scoring emits exactly one event per overlapping collider (no per-tick
deduplication), adds exactly 1 to the score per overlapping enemy — so at
least 1 here — and despawns exactly the overlapping enemies, this one
included; the iteration covers the whole query snapshot, so despawning one
enemy skips no other collider; and on a second identical run over the query
with the despawned entities removed, this enemy is no longer present and is
not despawned again. -/
theorem c3_enemy_collision_scores_and_despawns (score : Nat) (pt : Transform)
    (q : List ColliderItem) (c : ColliderItem)
    (hc : c ∈ q) (he : c.isEnemy = true) (hov : hits pt c = true) :
    (check_for_collisions_core score pt q).events = (q.filter (hits pt)).length ∧
    (check_for_collisions_core score pt q).score = score + (q.filter (hitsEnemy pt)).length ∧
    (check_for_collisions_core score pt q).despawned
      = (q.filter (hitsEnemy pt)).map ColliderItem.entity ∧
    c.entity ∈ (check_for_collisions_core score pt q).despawned ∧
    score + 1 ≤ (check_for_collisions_core score pt q).score ∧
    (∀ d ∈ q.filter (fun d =>
        !(decide (d.entity ∈ (check_for_collisions_core score pt q).despawned))),
      d.entity ≠ c.entity) ∧
    c.entity ∉ (check_for_collisions_core (check_for_collisions_core score pt q).score pt
      (q.filter (fun d =>
        !(decide (d.entity ∈ (check_for_collisions_core score pt q).despawned))))).despawned := by
  have hcf : c ∈ q.filter (hitsEnemy pt) :=
    List.mem_filter.mpr ⟨hc, by simp [hitsEnemy, he, hov]⟩
  have hmem : c.entity ∈ (q.filter (hitsEnemy pt)).map ColliderItem.entity :=
    List.mem_map.mpr ⟨c, hcf, rfl⟩
  have hlen : 1 ≤ (q.filter (hitsEnemy pt)).length :=
    List.length_pos.mpr (List.ne_nil_of_mem hcf)
  simp only [check_core_eq]
  refine ⟨trivial, trivial, trivial, hmem, by omega, ?_, ?_⟩
  · intro d hd heq
    have h2 := (List.mem_filter.mp hd).2
    simp only [Bool.not_eq_true', decide_eq_false_iff_not] at h2
    exact h2 (heq ▸ hmem)
  · intro hmem2
    obtain ⟨d, hd, hde⟩ := List.mem_map.mp hmem2
    have hdq2 := (List.mem_filter.mp hd).1
    have h2 := (List.mem_filter.mp hdq2).2
    simp only [Bool.not_eq_true', decide_eq_false_iff_not] at h2
    exact h2 (hde ▸ hmem)

/-- Pacman transform at the arena center, for the C3 witness. -/
def c3_pac : Transform := { translation := ⟨0, 0, 0⟩, scale := PACMAN_SIZE }

/-- An enemy entity (id 7) at the arena center, for the C3 witness. -/
def c3_enemy : ColliderItem :=
  ⟨7, { translation := ⟨0, 0, 0⟩, scale := ENEMY_SIZE.extend 1 }, true⟩

/-- Witness for C3: the player at the arena center overlapping one enemy. -/
theorem c3_enemy_collision_scores_and_despawns_witness :
    (check_for_collisions_core 0 c3_pac [c3_enemy]).events
      = ([c3_enemy].filter (hits c3_pac)).length ∧
    (check_for_collisions_core 0 c3_pac [c3_enemy]).score
      = 0 + ([c3_enemy].filter (hitsEnemy c3_pac)).length ∧
    (check_for_collisions_core 0 c3_pac [c3_enemy]).despawned
      = ([c3_enemy].filter (hitsEnemy c3_pac)).map ColliderItem.entity ∧
    c3_enemy.entity ∈ (check_for_collisions_core 0 c3_pac [c3_enemy]).despawned ∧
    0 + 1 ≤ (check_for_collisions_core 0 c3_pac [c3_enemy]).score ∧
    (∀ d ∈ [c3_enemy].filter (fun d =>
        !(decide (d.entity ∈ (check_for_collisions_core 0 c3_pac [c3_enemy]).despawned))),
      d.entity ≠ c3_enemy.entity) ∧
    c3_enemy.entity ∉ (check_for_collisions_core
      (check_for_collisions_core 0 c3_pac [c3_enemy]).score c3_pac
      ([c3_enemy].filter (fun d =>
        !(decide (d.entity ∈ (check_for_collisions_core 0 c3_pac [c3_enemy]).despawned))))).despawned :=
  c3_enemy_collision_scores_and_despawns 0 c3_pac [c3_enemy] c3_enemy
    (List.mem_singleton.mpr rfl) rfl
    (by
      rw [hits, collide_iff]
      norm_num [c3_pac, c3_enemy, Vec2.extend, Vec3.truncate, PACMAN_SIZE, ENEMY_SIZE])

end PacHuman


